import Mathlib

/-!
Shallow embedding of the ha_kumo_ws device-state synchronization core
(pykumo2/models.py, pykumo2/payloads.py, pykumo2/client.py, coordinator.py)
and proofs of the specified merge, hold, and authentication properties.
-/

namespace KumoWS

/-- Python-style dynamic values as they appear in JSON payloads and in the
dynamically typed fields of the device record. Floats are modelled as rationals
(the code only stores and compares them), datetimes as rational seconds. -/
inductive PyVal where
  | none : PyVal
  | bool : Bool → PyVal
  | int : Int → PyVal
  | float : Rat → PyVal
  | str : String → PyVal
  | dict : List (String × PyVal) → PyVal
  | list : List PyVal → PyVal

/-- A Python dict with string keys, as an association list (unique keys). -/
abbrev Dict := List (String × PyVal)

/-- Python truthiness, as used by `bool(x)`, `x or y` and `if x:`. -/
def truthy : PyVal → Bool
  | PyVal.none => false
  | PyVal.bool b => b
  | PyVal.int n => n != 0
  | PyVal.float q => q != 0
  | PyVal.str s => s != ""
  | PyVal.dict l => !l.isEmpty
  | PyVal.list l => !l.isEmpty

/-- Python `x or y`: the left operand when truthy, otherwise the right one. -/
def pyOr (a b : PyVal) : PyVal := if truthy a then a else b

/-- Python `v == s` for a string literal `s`: only the equal string compares true. -/
def isStr (v : PyVal) (s : String) : Bool :=
  match v with
  | PyVal.str t => t == s
  | _ => false

/-- Python `v is None`. -/
def isNone : PyVal → Bool
  | PyVal.none => true
  | _ => false

/-- Python `isinstance(v, dict)`. -/
def isDict : PyVal → Bool
  | PyVal.dict _ => true
  | _ => false

/-- The underlying dict of a dict value (callers check `isDict` first). -/
def asDict : PyVal → Dict
  | PyVal.dict l => l
  | _ => []

/-- Python `payload.get(k)`: the stored value, or `None` when the key is absent. -/
def pyGet (p : Dict) (k : String) : PyVal := (p.lookup k).getD PyVal.none

/-- Python `k in payload`. -/
def hasKey (p : Dict) (k : String) : Bool := (p.lookup k).isSome

/-- Python `d[k] = v` on a dict: replace the existing binding in place, or
append a new binding at the end. -/
def dictInsert : List (String × α) → String → α → List (String × α)
  | [], k, v => [(k, v)]
  | kv :: rest, k, v =>
    if kv.1 = k then (k, v) :: rest else kv :: dictInsert rest k v

/-- Python `d.update(new)`: assign every binding of `new` into `d`, in order. -/
def dictUpdate (d new : List (String × α)) : List (String × α) :=
  new.foldl (fun acc kv => dictInsert acc kv.1 kv.2) d

/-- Python `d.pop(k, None)`: drop the binding for `k`. -/
def dictRemove (d : List (String × α)) (k : String) : List (String × α) :=
  d.filter (fun kv => kv.1 ≠ k)

/-- Helper for pydantic `model_dump(exclude_none=True)`: a one-entry dict when
the field is present, nothing when it is absent. -/
def optEntry (k : String) : Option PyVal → Dict
  | Option.none => []
  | Option.some v => [(k, v)]

/-- An optional string attribute as the dynamic value it is assigned from. -/
def optStrVal : Option String → PyVal
  | Option.none => PyVal.none
  | Option.some s => PyVal.str s

/-- The canonical per-device record (`DeviceState` in pykumo2/models.py).
Dynamically typed Python attributes hold `PyVal`; `power` and `connected` are
always written through `bool(...)` or a comparison, so they stay `Bool`.
The Python dataclass never declares `room_temp_offset`: the attribute exists
only once some code assigns it, so it is `Option PyVal` with `Option.none`
meaning "attribute absent" (reading it then raises `AttributeError`). -/
structure DeviceState where
  serial : String
  name : PyVal
  zone_id : PyVal := PyVal.none
  connected : Bool := true
  room_temp : PyVal := PyVal.none
  sp_cool : PyVal := PyVal.none
  sp_heat : PyVal := PyVal.none
  humidity : PyVal := PyVal.none
  operation_mode : PyVal := PyVal.none
  power : Bool := false
  fan_speed : PyVal := PyVal.none
  air_direction : PyVal := PyVal.none
  schedule_owner : PyVal := PyVal.none
  last_status_change : PyVal := PyVal.none
  rssi : PyVal := PyVal.none
  two_figures_code : PyVal := PyVal.none
  serial_number : PyVal := PyVal.none
  model_number : PyVal := PyVal.none
  display_config : Dict := []
  raw : Dict := []
  room_temp_offset : Option PyVal := Option.none

/-- Source `DeviceState.VALID_FAN_SPEEDS`. -/
def VALID_FAN_SPEEDS : List String :=
  ["superQuiet", "quiet", "low", "powerful", "superPowerful", "auto"]

/-- Source `DeviceState.VALID_AIR_DIRECTIONS`. -/
def VALID_AIR_DIRECTIONS : List String :=
  ["auto", "horizontal", "midhorizontal", "midpoint", "midvertical", "vertical", "swing"]

/-- Python `fan in VALID_FAN_SPEEDS` for a dynamic value: only an equal string
is a member of a set of strings. -/
def isValidFan (v : PyVal) : Bool :=
  match v with
  | PyVal.str s => VALID_FAN_SPEEDS.contains s
  | _ => false

/-- Python `direction in VALID_AIR_DIRECTIONS` for a dynamic value. -/
def isValidAirDirection (v : PyVal) : Bool :=
  match v with
  | PyVal.str s => VALID_AIR_DIRECTIONS.contains s
  | _ => false

/-- Constructor call `DeviceState(serial=..., name=..., zone_id=...,
model_number=..., serial_number=..., raw=...)` followed by `__post_init__`,
which defaults `serial_number` to `serial` and, when `raw` is non-empty,
`model_number` to `raw.get("modelNumber")`. -/
def mkDeviceState (serial : String) (name zone_id serial_number model_number : PyVal)
    (raw : Dict) : DeviceState :=
  { serial := serial
    name := name
    zone_id := zone_id
    serial_number := if isNone serial_number then PyVal.str serial else serial_number
    model_number :=
      if isNone model_number && !raw.isEmpty then pyGet raw "modelNumber" else model_number
    raw := raw }

/-- The three explicit `self.raw[...] = payload.get(...)` writes that
`apply_update` performs before the final `self.raw.update(payload)`. -/
def rawSideWrites (raw : Dict) (p : Dict) : Dict :=
  let r1 :=
    if hasKey p "lastTimeConnected" then
      dictInsert raw "lastTimeConnected" (pyGet p "lastTimeConnected")
    else raw
  let r2 :=
    if hasKey p "lastTimeDisconnected" then
      dictInsert r1 "lastTimeDisconnected" (pyGet p "lastTimeDisconnected")
    else r1
  if hasKey p "lastDisconnectedReason" then
    dictInsert r2 "lastDisconnectedReason" (pyGet p "lastDisconnectedReason")
  else r2

/-- Python `payload.get("status") == "connected"`. -/
def statusConnected (v : PyVal) : Bool := isStr v "connected"

/-- Source `DeviceState.apply_update`: merge any payload dict into the device state.
Each canonical field is written only when its key (or one of its alias keys) is
present in the payload; the sequential Python mutations touch disjoint fields,
so they are rendered as a single record update. `connected` is written first
from the `connected` key and then from the `status` key, so the `status`
branch wins whenever both keys are present. Enumerated values outside the
allow-list leave their field untouched. The raw bag receives the three
explicit connectivity keys and then the whole payload via `raw.update`. -/
def applyUpdate (d : DeviceState) (p : Dict) : DeviceState :=
  { d with
    name := if hasKey p "name" then pyGet p "name" else d.name
    room_temp := if hasKey p "roomTemp" then pyGet p "roomTemp" else d.room_temp
    sp_cool := if hasKey p "spCool" then pyGet p "spCool" else d.sp_cool
    sp_heat := if hasKey p "spHeat" then pyGet p "spHeat" else d.sp_heat
    humidity := if hasKey p "humidity" then pyGet p "humidity" else d.humidity
    operation_mode :=
      if hasKey p "operationMode" || hasKey p "mode" then
        pyOr (pyGet p "operationMode") (pyGet p "mode")
      else d.operation_mode
    power := if hasKey p "power" then truthy (pyGet p "power") else d.power
    fan_speed :=
      if hasKey p "fanSpeed" && isValidFan (pyGet p "fanSpeed") then pyGet p "fanSpeed"
      else d.fan_speed
    air_direction :=
      if hasKey p "airDirection" && isValidAirDirection (pyGet p "airDirection") then
        pyGet p "airDirection"
      else d.air_direction
    schedule_owner :=
      if hasKey p "scheduleOwner" then pyGet p "scheduleOwner" else d.schedule_owner
    last_status_change :=
      if hasKey p "lastStatusChangeAt" then pyGet p "lastStatusChangeAt"
      else d.last_status_change
    rssi := if hasKey p "rssi" then pyGet p "rssi" else d.rssi
    two_figures_code :=
      if hasKey p "twoFiguresCode" then pyGet p "twoFiguresCode" else d.two_figures_code
    serial_number :=
      if hasKey p "serialNumber" then pyGet p "serialNumber" else d.serial_number
    model_number :=
      if hasKey p "modelNumber" || hasKey p "model" || hasKey p "modelName" then
        pyOr (pyGet p "modelNumber") (pyOr (pyGet p "model") (pyGet p "modelName"))
      else d.model_number
    connected :=
      if hasKey p "status" then statusConnected (pyGet p "status")
      else if hasKey p "connected" then truthy (pyGet p "connected")
      else d.connected
    display_config :=
      if hasKey p "displayConfig" && isDict (pyGet p "displayConfig") then
        asDict (pyGet p "displayConfig")
      else d.display_config
    raw := dictUpdate (rawSideWrites d.raw p) p }

/-- Source `DeviceState.target_temperature`: the active target setpoint. -/
def targetTemperature (d : DeviceState) : PyVal :=
  if isStr d.operation_mode "cool" then d.sp_cool
  else if isStr d.operation_mode "heat" then d.sp_heat
  else if !(isNone d.sp_cool) then d.sp_cool
  else d.sp_heat

/-- Modelled from the spec wording of the target-temperature rule: the cool
setpoint in cooling mode, the heat setpoint in heating mode, otherwise
whichever of the two setpoints is non-absent, preferring cool when both are
present. Stated independently of `targetTemperature` for comparison. -/
def targetTemperatureSpec (d : DeviceState) : PyVal :=
  if isStr d.operation_mode "cool" then d.sp_cool
  else if isStr d.operation_mode "heat" then d.sp_heat
  else if isNone d.sp_cool then d.sp_heat
  else d.sp_cool

/-- Mutable state of `MitsubishiComfortCoordinator` that the socket-event and
hold logic touches: the device registry (`self.data`, a dict keyed by serial)
and the hold table (`self._holds`, serial to (monotonic expiry, protected key
set)). The protected set is carried as a list with membership semantics. -/
structure CoordState where
  data : List (String × DeviceState)
  holds : List (String × (Rat × List String))

/-- Source `MitsubishiComfortCoordinator._handle_socket_event` as a state transformer;
`now` is the `time.monotonic()` reading taken when the hold is consulted.
Events other than `device_update` and `device_status_v2` are dropped, as are
events whose `deviceSerial` is falsy or names no registered device. An expired
hold is popped lazily; a live hold strips every protected key from a copy of
the payload before the merge. The merged record is stored back and the
registry is republished. -/
def handleSocketEvent (st : CoordState) (event : String) (payload : Dict)
    (now : Rat) : CoordState :=
  if event != "device_update" && event != "device_status_v2" then st
  else
    match pyGet payload "deviceSerial" with
    | PyVal.str serial =>
      if serial == "" then st
      else
        match st.data.lookup serial with
        | Option.none => st
        | Option.some device =>
          let stripped :=
            match st.holds.lookup serial with
            | Option.none => (payload, st.holds)
            | Option.some (expiresAt, prot) =>
              if expiresAt ≤ now then (payload, dictRemove st.holds serial)
              else (payload.filter (fun kv => !(prot.contains kv.1)), st.holds)
          { data := dictInsert st.data serial (applyUpdate device stripped.1)
            holds := stripped.2 }
    | _ => st

/-- Source `MitsubishiComfortCoordinator.register_command_hold` (default duration
10.0 seconds): install or replace the hold entry for the serial with expiry
`now + duration` and the given protected key set. -/
def registerCommandHold (st : CoordState) (serial : String)
    (protectedKeys : List String) (duration : Rat) (now : Rat) : CoordState :=
  { st with holds := dictInsert st.holds serial (now + duration, protectedKeys) }

/-- One outbound network call of the client, in the order performed. -/
inductive NetCall where
  | login
  | refresh
  | api (method : String) (endpoint : String)
  deriving DecidableEq

/-- The client error taxonomy of pykumo2/errors.py: `authentication` is
`AuthenticationError`, `service` the generic `MitsubishiComfortError`. -/
inductive KumoError where
  | authentication (msg : String)
  | service (msg : String)
  deriving DecidableEq

/-- Source `TokenInfo`: token pair with expiry clocks (UTC seconds). -/
structure TokenInfo where
  access : PyVal
  refresh : PyVal
  access_expires_at : Rat
  refresh_expires_at : Rat

/-- Source `TokenInfo.from_response`: the expiries are fixed windows measured from
issuance (`now`), 18 minutes for access and 25 days for refresh; the token
strings default to `""` when the response omits them. -/
def TokenInfo.fromResponse (data : Dict) (now : Rat) : TokenInfo :=
  { access := (data.lookup "access").getD (PyVal.str "")
    refresh := (data.lookup "refresh").getD (PyVal.str "")
    access_expires_at := now + 18 * 60
    refresh_expires_at := now + 25 * 86400 }

/-- Source `TokenInfo.is_access_expired`: `now >= access_expires_at`. -/
def TokenInfo.isAccessExpired (t : TokenInfo) (now : Rat) : Bool :=
  decide (t.access_expires_at ≤ now)

/-- Source `TokenInfo.is_refresh_expired`: `now >= refresh_expires_at`. -/
def TokenInfo.isRefreshExpired (t : TokenInfo) (now : Rat) : Bool :=
  decide (t.refresh_expires_at ≤ now)

/-- The client state the auth machinery mutates: the cached token pair. -/
structure ClientState where
  tokens : Option TokenInfo

/-- Response of an auth endpoint as the client consumes it: the HTTP status
and the JSON a token pair is built from (for `/v3/login` the `token` member of
the body, for `/v3/refresh` the body itself). -/
structure AuthResponse where
  status : Nat
  tokenJson : Dict

/-- Response of a plain API endpoint: status and parsed body. -/
structure HttpResponse where
  status : Nat
  body : PyVal

/-- Source `MitsubishiComfortClient.async_login` (pure core): the environment answer
to the login POST is an input; a status of 400 or above raises
`AuthenticationError`, otherwise the cached pair is replaced wholesale. -/
def asyncLogin (st : ClientState) (now : Rat) (loginResp : AuthResponse) :
    List NetCall × Except KumoError ClientState :=
  ([NetCall.login],
    if 400 ≤ loginResp.status then
      Except.error (KumoError.authentication "Login failed")
    else
      Except.ok { st with
        tokens := Option.some (TokenInfo.fromResponse loginResp.tokenJson now) })

/-- Source `MitsubishiComfortClient._refresh_token` (pure core): raises
`AuthenticationError` without any network call when no truthy refresh token is
cached; otherwise performs the refresh POST and raises `AuthenticationError`
on a status of 400 or above, else replaces the cached pair wholesale. -/
def refreshToken (st : ClientState) (now : Rat) (refreshResp : AuthResponse) :
    List NetCall × Except KumoError ClientState :=
  match st.tokens with
  | Option.none =>
    ([], Except.error (KumoError.authentication "No refresh token available."))
  | Option.some t =>
    if !(truthy t.refresh) then
      ([], Except.error (KumoError.authentication "No refresh token available."))
    else
      ([NetCall.refresh],
        if 400 ≤ refreshResp.status then
          Except.error (KumoError.authentication "Token refresh failed")
        else
          Except.ok { st with
            tokens := Option.some (TokenInfo.fromResponse refreshResp.tokenJson now) })

/-- Source `MitsubishiComfortClient._ensure_authenticated` (pure core, one caller at
a time under the auth lock): login when no pair is cached, return unchanged
while the access token is unexpired, login when the refresh token has also
expired, otherwise refresh. Returns the network calls performed in order and
the resulting state or the raised error. -/
def ensureAuthenticated (st : ClientState) (now : Rat)
    (loginResp refreshResp : AuthResponse) :
    List NetCall × Except KumoError ClientState :=
  match st.tokens with
  | Option.none => asyncLogin st now loginResp
  | Option.some t =>
    if !(t.isAccessExpired now) then ([], Except.ok st)
    else if t.isRefreshExpired now then asyncLogin st now loginResp
    else refreshToken st now refreshResp

/-- Source `MitsubishiComfortClient._request` (pure core): `firstResp` is the
environment answer to the initial attempt and `retryResp` the answer to the
single 401-triggered retry of the same method and endpoint. After the optional
authentication step the call is issued once; a 401 answer on an authenticated
call triggers exactly one `_refresh_token` (whose failure raises
`AuthenticationError`) and exactly one retry; any remaining status of 400 or
above raises the generic `MitsubishiComfortError`. -/
def request (st : ClientState) (now : Rat) (method endpoint : String)
    (requireAuth : Bool) (loginResp refreshResp : AuthResponse)
    (firstResp retryResp : HttpResponse) :
    List NetCall × Except KumoError (ClientState × PyVal) :=
  let step1 :=
    if requireAuth then ensureAuthenticated st now loginResp refreshResp
    else ([], Except.ok st)
  match step1 with
  | (calls, Except.error e) => (calls, Except.error e)
  | (calls, Except.ok st1) =>
    if requireAuth && st1.tokens.isNone then
      (calls, Except.error (KumoError.authentication "Missing token after authentication."))
    else
      let calls1 := calls ++ [NetCall.api method endpoint]
      if firstResp.status == 401 && requireAuth then
        match refreshToken st1 now refreshResp with
        | (rcalls, Except.error e) => (calls1 ++ rcalls, Except.error e)
        | (rcalls, Except.ok st2) =>
          if st2.tokens.isNone then
            (calls1 ++ rcalls,
              Except.error (KumoError.authentication "Refresh failed, no token present."))
          else
            let calls2 := calls1 ++ rcalls ++ [NetCall.api method endpoint]
            if 400 ≤ retryResp.status then
              (calls2, Except.error (KumoError.service "API error"))
            else (calls2, Except.ok (st2, retryResp.body))
      else
        if 400 ≤ firstResp.status then
          (calls1, Except.error (KumoError.service "API error"))
        else (calls1, Except.ok (st1, firstResp.body))

/-- The pydantic model `DeviceStatePayload` (payloads.py): each declared field
is `Option`, `Option.none` meaning absent or null; `extra` carries the
unrecognized keys pydantic keeps in its extras bag together with the
passthrough fields of its subclasses, which this logic never examines and
which surface only through `raw_payload`. -/
structure DeviceStatePayloadT where
  deviceSerial : Option String := Option.none
  rssi : Option Int := Option.none
  power : Option Int := Option.none
  operationMode : Option String := Option.none
  humidity : Option Rat := Option.none
  scheduleOwner : Option String := Option.none
  fanSpeed : Option String := Option.none
  airDirection : Option String := Option.none
  roomTemp : Option Rat := Option.none
  twoFiguresCode : Option String := Option.none
  spCool : Option Rat := Option.none
  spHeat : Option Rat := Option.none
  spAuto : Option Rat := Option.none
  serialNumber : Option String := Option.none
  modelNumber : Option String := Option.none
  connected : Option Bool := Option.none
  displayConfig : Option Dict := Option.none
  extra : Dict := []

/-- Source `KumoBaseModel.raw_payload` for `DeviceStatePayload`:
`model_dump(by_alias=True, exclude_none=True)`, i.e. the dict of the fields
that are present, followed by the preserved extras. -/
def DeviceStatePayloadT.rawPayload (p : DeviceStatePayloadT) : Dict :=
  optEntry "deviceSerial" (p.deviceSerial.map PyVal.str) ++
  optEntry "rssi" (p.rssi.map PyVal.int) ++
  optEntry "power" (p.power.map PyVal.int) ++
  optEntry "operationMode" (p.operationMode.map PyVal.str) ++
  optEntry "humidity" (p.humidity.map PyVal.float) ++
  optEntry "scheduleOwner" (p.scheduleOwner.map PyVal.str) ++
  optEntry "fanSpeed" (p.fanSpeed.map PyVal.str) ++
  optEntry "airDirection" (p.airDirection.map PyVal.str) ++
  optEntry "roomTemp" (p.roomTemp.map PyVal.float) ++
  optEntry "twoFiguresCode" (p.twoFiguresCode.map PyVal.str) ++
  optEntry "spCool" (p.spCool.map PyVal.float) ++
  optEntry "spHeat" (p.spHeat.map PyVal.float) ++
  optEntry "spAuto" (p.spAuto.map PyVal.float) ++
  optEntry "serialNumber" (p.serialNumber.map PyVal.str) ++
  optEntry "modelNumber" (p.modelNumber.map PyVal.str) ++
  optEntry "connected" (p.connected.map PyVal.bool) ++
  optEntry "displayConfig" (p.displayConfig.map PyVal.dict) ++
  p.extra

/-- Source `DeviceStatePayload.apply_to_device`: each present field is written to the
record; an absent field leaves it untouched; the enumerated fields are checked
against their allow-list; finally `store_raw(device)` merges the dumped
payload into the raw bag. -/
def DeviceStatePayloadT.applyToDevice (p : DeviceStatePayloadT) (d : DeviceState) :
    DeviceState :=
  { d with
    room_temp := match p.roomTemp with
      | Option.some v => PyVal.float v
      | Option.none => d.room_temp
    sp_cool := match p.spCool with
      | Option.some v => PyVal.float v
      | Option.none => d.sp_cool
    sp_heat := match p.spHeat with
      | Option.some v => PyVal.float v
      | Option.none => d.sp_heat
    humidity := match p.humidity with
      | Option.some v => PyVal.float v
      | Option.none => d.humidity
    operation_mode := match p.operationMode with
      | Option.some v => PyVal.str v
      | Option.none => d.operation_mode
    power := match p.power with
      | Option.some v => truthy (PyVal.int v)
      | Option.none => d.power
    fan_speed := match p.fanSpeed with
      | Option.some s => if VALID_FAN_SPEEDS.contains s then PyVal.str s else d.fan_speed
      | Option.none => d.fan_speed
    air_direction := match p.airDirection with
      | Option.some s =>
        if VALID_AIR_DIRECTIONS.contains s then PyVal.str s else d.air_direction
      | Option.none => d.air_direction
    schedule_owner := match p.scheduleOwner with
      | Option.some v => PyVal.str v
      | Option.none => d.schedule_owner
    rssi := match p.rssi with
      | Option.some v => PyVal.int v
      | Option.none => d.rssi
    two_figures_code := match p.twoFiguresCode with
      | Option.some v => PyVal.str v
      | Option.none => d.two_figures_code
    serial_number := match p.serialNumber with
      | Option.some v => PyVal.str v
      | Option.none => d.serial_number
    model_number := match p.modelNumber with
      | Option.some v => PyVal.str v
      | Option.none => d.model_number
    connected := match p.connected with
      | Option.some b => b
      | Option.none => d.connected
    display_config := match p.displayConfig with
      | Option.some cfg => cfg
      | Option.none => d.display_config
    raw := dictUpdate d.raw p.rawPayload }

/-- Source `ZoneAdapterPayload` is `DeviceStatePayload` plus passthrough fields
(carried in `extra`). -/
abbrev ZoneAdapterT := DeviceStatePayloadT

/-- Source `DeviceDetailsResponse` is `DeviceUpdatePayload` (itself
`DeviceStatePayload` plus passthrough fields, carried in `extra`). -/
abbrev DeviceDetailsT := DeviceStatePayloadT

/-- Source `DeviceDetailsResponse.apply_to_device`: the inherited merge followed by
`store_raw(device, "device_details")`. -/
def applyDetails (p : DeviceDetailsT) (d : DeviceState) : DeviceState :=
  let d1 := p.applyToDevice d
  { d1 with raw := dictInsert d1.raw "device_details" (PyVal.dict p.rawPayload) }

/-- The pydantic model `ZoneResponse`: id, name and adapter, extras kept. -/
structure ZoneResponseT where
  id : Option String := Option.none
  name : Option String := Option.none
  isActive : Option Bool := Option.none
  adapter : Option ZoneAdapterT := Option.none
  extra : Dict := []

/-- Source `raw_payload` for a zone: the dumped fields, with the adapter dumped as a
nested dict. -/
def ZoneResponseT.rawPayload (z : ZoneResponseT) : Dict :=
  optEntry "id" (z.id.map PyVal.str) ++
  optEntry "name" (z.name.map PyVal.str) ++
  optEntry "isActive" (z.isActive.map PyVal.bool) ++
  (match z.adapter with
   | Option.some a => [("adapter", PyVal.dict a.rawPayload)]
   | Option.none => []) ++
  z.extra

/-- Source `ZoneResponse.apply_to_device`: a truthy name renames the record, the
adapter payload is merged, and the dumped zone is stored under the `zone` key
of the raw bag. -/
def ZoneResponseT.applyToDevice (z : ZoneResponseT) (d : DeviceState) : DeviceState :=
  let d1 :=
    match z.name with
    | Option.some n => if n != "" then { d with name := PyVal.str n } else d
    | Option.none => d
  let d2 :=
    match z.adapter with
    | Option.some a => a.applyToDevice d1
    | Option.none => d1
  { d2 with raw := dictInsert d2.raw "zone" (PyVal.dict z.rawPayload) }

/-- The pydantic model `DeviceStatusResponse`: only `roomTempDisplayOffset`
drives logic; the remaining declared fields ride along in `extra`. -/
structure DeviceStatusT where
  roomTempDisplayOffset : Option Rat := Option.none
  extra : Dict := []

/-- Source `raw_payload` for a device-status response. -/
def DeviceStatusT.rawPayload (p : DeviceStatusT) : Dict :=
  optEntry "roomTempDisplayOffset" (p.roomTempDisplayOffset.map PyVal.float) ++ p.extra

/-- Source `DeviceStatusResponse.apply_to_device`: assigns the dynamic
`room_temp_offset` attribute when the offset is present, then
`store_raw(device, "device_status")`. -/
def applyStatus (p : DeviceStatusT) (d : DeviceState) : DeviceState :=
  let d1 :=
    match p.roomTempDisplayOffset with
    | Option.some v => { d with room_temp_offset := Option.some (PyVal.float v) }
    | Option.none => d
  { d1 with raw := dictInsert d1.raw "device_status" (PyVal.dict p.rawPayload) }

/-- Python exceptions `async_get_devices` can raise: an `AttributeError` from
reading an attribute the record does not have, or a client error. -/
inductive PyError where
  | attributeError (attr : String)
  | kumo (e : KumoError)
  deriving DecidableEq

/-- The zone-listing fold of `async_get_devices`: build or fetch the record
for each zone with a truthy adapter serial, refresh its zone id, merge the
zone payload, and store it back. -/
def buildDevicesFromZones (zones : List ZoneResponseT) : List (String × DeviceState) :=
  zones.foldl (fun acc z =>
    match z.adapter with
    | Option.none => acc
    | Option.some a =>
      match a.deviceSerial with
      | Option.none => acc
      | Option.some serial =>
        if serial == "" then acc
        else
          let device :=
            match acc.lookup serial with
            | Option.some dev => dev
            | Option.none =>
              mkDeviceState serial
                (PyVal.str
                  (match z.name with
                   | Option.some n => if n != "" then n else serial
                   | Option.none => serial))
                (optStrVal z.id) (optStrVal a.serialNumber) (optStrVal a.modelNumber) []
          let device :=
            match z.id with
            | Option.some zid =>
              if zid != "" then { device with zone_id := PyVal.str zid } else device
            | Option.none => device
          dictInsert acc serial (z.applyToDevice device)) []

/-- Source `MitsubishiComfortClient.async_get_devices` (pure core): `zones` is the
parsed zone listing and `detailsResp` and `statusResp` give the environment
answer to the per-device enrichment requests, `Except.error ()` meaning the
request (or its validation) raised. The first enrichment pass fills missing
model numbers, swallowing failures; the second pass starts by reading
`device.room_temp_offset`, which raises `AttributeError` whenever the
attribute was never assigned, and otherwise fills missing offsets, swallowing
failures. -/
def asyncGetDevices (zones : List ZoneResponseT)
    (detailsResp : String → Except Unit DeviceDetailsT)
    (statusResp : String → Except Unit DeviceStatusT) :
    Except PyError (List (String × DeviceState)) :=
  let devices := buildDevicesFromZones zones
  let step1 :=
    devices.map (fun kv =>
      if truthy kv.2.model_number then kv
      else
        match detailsResp kv.1 with
        | Except.error _ => kv
        | Except.ok det => (kv.1, applyDetails det kv.2))
  step1.foldl (fun acc kv =>
    match acc with
    | Except.error e => Except.error e
    | Except.ok done =>
      match kv.2.room_temp_offset with
      | Option.none => Except.error (PyError.attributeError "room_temp_offset")
      | Option.some off =>
        if !(isNone off) then Except.ok (done ++ [kv])
        else
          match statusResp kv.1 with
          | Except.error _ => Except.ok (done ++ [kv])
          | Except.ok stp => Except.ok (done ++ [(kv.1, applyStatus stp kv.2)]))
    (Except.ok [])

theorem lookup_dictInsert_self (d : List (String × α)) (k : String) (v : α) :
    (dictInsert d k v).lookup k = some v := by
  induction d with
  | nil => simp [dictInsert, List.lookup]
  | cons kv rest ih =>
    by_cases h : kv.1 = k
    · simp [dictInsert, h, List.lookup]
    · simp only [dictInsert, if_neg h, List.lookup]
      have : (k == kv.1) = false := by
        simp [beq_iff_eq]
        exact fun hh => h hh.symm
      simp [this, ih]

theorem lookup_dictInsert_ne (d : List (String × α)) (k k2 : String) (v : α)
    (h : k2 ≠ k) : (dictInsert d k v).lookup k2 = d.lookup k2 := by
  induction d with
  | nil =>
    have hb : (k2 == k) = false := by simp [beq_iff_eq, h]
    simp [dictInsert, List.lookup, hb]
  | cons kv rest ih =>
    by_cases hk : kv.1 = k
    · subst hk
      simp only [dictInsert, if_pos rfl, List.lookup]
      have hb : (k2 == kv.1) = false := by simp [beq_iff_eq, h]
      simp [hb]
    · simp only [dictInsert, if_neg hk, List.lookup]
      cases hc : (k2 == kv.1) <;> simp [ih]

theorem lookup_dictRemove_self (d : List (String × α)) (k : String) :
    (dictRemove d k).lookup k = none := by
  induction d with
  | nil => simp [dictRemove, List.lookup]
  | cons kv rest ih =>
    by_cases h : kv.1 = k
    · have : dictRemove (kv :: rest) k = dictRemove rest k := by
        simp [dictRemove, List.filter_cons, h]
      rw [this]
      exact ih
    · have : dictRemove (kv :: rest) k = kv :: dictRemove rest k := by
        simp [dictRemove, List.filter_cons, h]
      rw [this]
      have hb : (k == kv.1) = false :=
        beq_eq_false_iff_ne.mpr (fun hh => h hh.symm)
      simp [List.lookup, hb, ih]

theorem lookup_dictUpdate_notin (d new : List (String × α)) (k : String)
    (h : (new.lookup k).isNone) : (dictUpdate d new).lookup k = d.lookup k := by
  induction new generalizing d with
  | nil => simp [dictUpdate]
  | cons kv rest ih =>
    simp only [List.lookup, dictUpdate, List.foldl] at *
    by_cases hk : k = kv.1
    · simp [beq_iff_eq, hk] at h
    · have hb : (k == kv.1) = false := by simp [beq_iff_eq, hk]
      simp only [hb] at h
      have := ih (dictInsert d kv.1 kv.2) h
      simpa [dictUpdate, lookup_dictInsert_ne _ _ _ _ hk] using this

theorem mem_keys_dictInsert {x : String} (d : List (String × α)) (k : String) (v : α) :
    x ∈ (dictInsert d k v).map Prod.fst ↔ x ∈ d.map Prod.fst ∨ x = k := by
  induction d with
  | nil => simp [dictInsert]
  | cons kv rest ih =>
    by_cases h : kv.1 = k
    · subst h
      simp [dictInsert]
      tauto
    · simp [dictInsert, h, ih]
      tauto

theorem nodup_keys_dictInsert (d : List (String × α)) (k : String) (v : α)
    (h : (d.map Prod.fst).Nodup) : ((dictInsert d k v).map Prod.fst).Nodup := by
  induction d with
  | nil => simp [dictInsert]
  | cons kv rest ih =>
    simp only [List.map_cons, List.nodup_cons] at h
    by_cases hk : kv.1 = k
    · subst hk
      simpa [dictInsert] using h
    · simp only [dictInsert, if_neg hk, List.map_cons, List.nodup_cons]
      refine ⟨fun hm => ?_, ih h.2⟩
      rcases (mem_keys_dictInsert rest k v).mp hm with hin | heq
      · exact h.1 hin
      · exact hk heq

/-- Lookup in a filtered payload: keys in the stripped set are gone, the rest
are untouched. -/
theorem lookup_filter_strip (p : Dict) (prot : List String) (k : String) :
    (p.filter (fun kv => !(prot.contains kv.1))).lookup k =
      if prot.contains k then none else p.lookup k := by
  induction p with
  | nil => simp [List.lookup]
  | cons kv rest ih =>
    cases hp : prot.contains kv.1 with
    | true =>
      rw [List.filter_cons_of_neg (by rw [hp]; simp)]
      rw [ih]
      cases hk : prot.contains k with
      | true => simp
      | false =>
        have hb : (k == kv.1) = false :=
          beq_eq_false_iff_ne.mpr (fun hh => by
            rw [hh] at hk
            rw [hk] at hp
            exact Bool.false_ne_true hp)
        simp [List.lookup, hb]
    | false =>
      rw [List.filter_cons_of_pos (by rw [hp]; rfl)]
      simp only [List.lookup]
      cases hc : (k == kv.1) with
      | false => simpa [hc] using ih
      | true =>
        have hk : k = kv.1 := by simpa [beq_iff_eq] using hc
        rw [hk, hp]
        simp


theorem lookup_condInsert (r p : Dict) (key : String) (v : PyVal) (k : String)
    (h : hasKey p k = false) :
    ((if hasKey p key then dictInsert r key v else r).lookup k) = r.lookup k := by
  cases hc : hasKey p key with
  | false => simp
  | true =>
    have hne : k ≠ key := fun he => by
      rw [he, hc] at h
      exact Bool.noConfusion h
    simpa using lookup_dictInsert_ne r key k v hne

theorem lookup_rawSideWrites_notin (raw p : Dict) (k : String)
    (h : hasKey p k = false) : (rawSideWrites raw p).lookup k = raw.lookup k := by
  unfold rawSideWrites
  rw [lookup_condInsert _ _ _ _ _ h, lookup_condInsert _ _ _ _ _ h,
    lookup_condInsert _ _ _ _ _ h]

theorem hasKey_false_isNone (p : Dict) (k : String) (h : hasKey p k = false) :
    (p.lookup k).isNone := by
  unfold hasKey at h
  cases hc : p.lookup k with
  | none => rfl
  | some v => rw [hc] at h; exact absurd h (by simp)

/-- C9: the derived effective target temperature is the cool setpoint in
cooling mode, the heat setpoint in heating mode, and otherwise whichever of
the two setpoints is non-absent, preferring cool when both are present. -/
theorem targetTemperature_matches_spec (d : DeviceState) :
    targetTemperature d = targetTemperatureSpec d := by
  unfold targetTemperature targetTemperatureSpec
  cases h : isNone d.sp_cool <;> simp [h]

/-- C10: whenever the merged payload carries a `status` key, the record
connectivity flag afterwards equals the comparison of that value with the
string `connected`, overriding any boolean `connected` key in the same
payload. -/
theorem status_key_decides_connected (d : DeviceState) (p : Dict) (v : PyVal)
    (h : p.lookup "status" = some v) :
    (applyUpdate d p).connected = statusConnected v := by
  have hk : hasKey p "status" = true := by simp [hasKey, h]
  have hg : pyGet p "status" = v := by simp [pyGet, h]
  simp [applyUpdate, hk, hg]

/-- Witness for C10 at a payload carrying both a boolean `connected: True` and
a non-`connected` string status: the string decides, the flag ends up false. -/
theorem status_key_decides_connected_witness :
    (applyUpdate { serial := "A1", name := PyVal.str "L" }
        [("connected", PyVal.bool true), ("status", PyVal.str "offline")]).connected
      = false := by
  have h := status_key_decides_connected
    { serial := "A1", name := PyVal.str "L" }
    [("connected", PyVal.bool true), ("status", PyVal.str "offline")]
    (PyVal.str "offline") rfl
  simpa [statusConnected, isStr] using h

/-- C8: `register_command_hold` installs or replaces the single hold entry for
the serial: afterwards the entry is exactly (now + duration, given keys), every
entry of every other serial is untouched, key uniqueness of the table is preserved,
and the device registry is untouched. -/
theorem registerHold_replaces_wholesale (st : CoordState) (serial : String)
    (keys : List String) (dur now : Rat) :
    ((registerCommandHold st serial keys dur now).holds.lookup serial
        = some (now + dur, keys))
    ∧ (∀ s, s ≠ serial →
        (registerCommandHold st serial keys dur now).holds.lookup s
          = st.holds.lookup s)
    ∧ ((st.holds.map Prod.fst).Nodup →
        ((registerCommandHold st serial keys dur now).holds.map Prod.fst).Nodup)
    ∧ (registerCommandHold st serial keys dur now).data = st.data := by
  refine ⟨lookup_dictInsert_self _ _ _, ?_, ?_, rfl⟩
  · intro s hs
    exact lookup_dictInsert_ne _ _ _ _ hs
  · intro h
    exact nodup_keys_dictInsert _ _ _ h

/-- Witness for C8: replacing an existing hold for `A1` yields exactly the new
entry and leaves a hold for `B2` alone. -/
theorem registerHold_replaces_wholesale_witness :
    ((registerCommandHold ⟨[], [("A1", ((5 : Rat), ["power"])), ("B2", ((7 : Rat), ["spHeat"]))]⟩
        "A1" ["spCool", "power"] 10 3).holds.lookup "A1"
      = some ((3 : Rat) + 10, ["spCool", "power"]))
    ∧ ((registerCommandHold ⟨[], [("A1", ((5 : Rat), ["power"])), ("B2", ((7 : Rat), ["spHeat"]))]⟩
        "A1" ["spCool", "power"] 10 3).holds.lookup "B2"
      = some ((7 : Rat), ["spHeat"])) := by
  have h := registerHold_replaces_wholesale
    ⟨[], [("A1", ((5 : Rat), ["power"])), ("B2", ((7 : Rat), ["spHeat"]))]⟩
    "A1" ["spCool", "power"] 10 3
  exact ⟨h.1, by rw [h.2.1 "B2" (by decide)]; rfl⟩

/-- C2: absence never clears. Merging a payload leaves every record field
whose key (and alias keys, where the code recognizes aliases) is absent from
the payload unchanged, including each untouched raw-bag entry; and for the
typed payload shape, an absent (`None`) field likewise leaves its record field
unchanged. -/
theorem merge_absence_preserves (d : DeviceState) (p : Dict) :
    (hasKey p "name" = false → (applyUpdate d p).name = d.name)
    ∧ (hasKey p "roomTemp" = false → (applyUpdate d p).room_temp = d.room_temp)
    ∧ (hasKey p "spCool" = false → (applyUpdate d p).sp_cool = d.sp_cool)
    ∧ (hasKey p "spHeat" = false → (applyUpdate d p).sp_heat = d.sp_heat)
    ∧ (hasKey p "humidity" = false → (applyUpdate d p).humidity = d.humidity)
    ∧ (hasKey p "operationMode" = false → hasKey p "mode" = false →
        (applyUpdate d p).operation_mode = d.operation_mode)
    ∧ (hasKey p "power" = false → (applyUpdate d p).power = d.power)
    ∧ (hasKey p "fanSpeed" = false → (applyUpdate d p).fan_speed = d.fan_speed)
    ∧ (hasKey p "airDirection" = false →
        (applyUpdate d p).air_direction = d.air_direction)
    ∧ (hasKey p "scheduleOwner" = false →
        (applyUpdate d p).schedule_owner = d.schedule_owner)
    ∧ (hasKey p "lastStatusChangeAt" = false →
        (applyUpdate d p).last_status_change = d.last_status_change)
    ∧ (hasKey p "rssi" = false → (applyUpdate d p).rssi = d.rssi)
    ∧ (hasKey p "twoFiguresCode" = false →
        (applyUpdate d p).two_figures_code = d.two_figures_code)
    ∧ (hasKey p "serialNumber" = false →
        (applyUpdate d p).serial_number = d.serial_number)
    ∧ (hasKey p "modelNumber" = false → hasKey p "model" = false →
        hasKey p "modelName" = false →
        (applyUpdate d p).model_number = d.model_number)
    ∧ (hasKey p "connected" = false → hasKey p "status" = false →
        (applyUpdate d p).connected = d.connected)
    ∧ (hasKey p "displayConfig" = false →
        (applyUpdate d p).display_config = d.display_config)
    ∧ (∀ k, hasKey p k = false →
        (applyUpdate d p).raw.lookup k = d.raw.lookup k)
    ∧ (applyUpdate d p).zone_id = d.zone_id
    ∧ (applyUpdate d p).serial = d.serial
    ∧ (∀ q : DeviceStatePayloadT,
        (q.roomTemp = Option.none → (q.applyToDevice d).room_temp = d.room_temp)
        ∧ (q.spCool = Option.none → (q.applyToDevice d).sp_cool = d.sp_cool)
        ∧ (q.spHeat = Option.none → (q.applyToDevice d).sp_heat = d.sp_heat)
        ∧ (q.operationMode = Option.none →
            (q.applyToDevice d).operation_mode = d.operation_mode)
        ∧ (q.power = Option.none → (q.applyToDevice d).power = d.power)
        ∧ (q.fanSpeed = Option.none → (q.applyToDevice d).fan_speed = d.fan_speed)
        ∧ (q.airDirection = Option.none →
            (q.applyToDevice d).air_direction = d.air_direction)
        ∧ (q.connected = Option.none → (q.applyToDevice d).connected = d.connected)
        ∧ (q.modelNumber = Option.none →
            (q.applyToDevice d).model_number = d.model_number)) := by
  refine ⟨?_, ?_, ?_, ?_, ?_, ?_, ?_, ?_, ?_, ?_, ?_, ?_, ?_, ?_, ?_, ?_, ?_, ?_,
    rfl, rfl, ?_⟩
  · intro h; simp [applyUpdate, h]
  · intro h; simp [applyUpdate, h]
  · intro h; simp [applyUpdate, h]
  · intro h; simp [applyUpdate, h]
  · intro h; simp [applyUpdate, h]
  · intro h1 h2; simp [applyUpdate, h1, h2]
  · intro h; simp [applyUpdate, h]
  · intro h; simp [applyUpdate, h]
  · intro h; simp [applyUpdate, h]
  · intro h; simp [applyUpdate, h]
  · intro h; simp [applyUpdate, h]
  · intro h; simp [applyUpdate, h]
  · intro h; simp [applyUpdate, h]
  · intro h; simp [applyUpdate, h]
  · intro h1 h2 h3; simp [applyUpdate, h1, h2, h3]
  · intro h1 h2; simp [applyUpdate, h1, h2]
  · intro h; simp [applyUpdate, h]
  · intro k h
    show (dictUpdate (rawSideWrites d.raw p) p).lookup k = d.raw.lookup k
    rw [lookup_dictUpdate_notin _ _ _ (hasKey_false_isNone p k h)]
    exact lookup_rawSideWrites_notin d.raw p k h
  · intro q
    refine ⟨?_, ?_, ?_, ?_, ?_, ?_, ?_, ?_, ?_⟩ <;>
      { intro h; simp [DeviceStatePayloadT.applyToDevice, h] }

/-- Witness for C2: a payload carrying only an unrelated key leaves every
canonical field and an untouched raw entry unchanged. -/
theorem merge_absence_preserves_witness :
    (applyUpdate
        { serial := "A1", name := PyVal.str "L", sp_cool := PyVal.float 24,
          raw := [("k0", PyVal.int 7)] }
        [("zzz", PyVal.int 1)]).sp_cool = PyVal.float 24
    ∧ (applyUpdate
        { serial := "A1", name := PyVal.str "L", sp_cool := PyVal.float 24,
          raw := [("k0", PyVal.int 7)] }
        [("zzz", PyVal.int 1)]).raw.lookup "k0" = some (PyVal.int 7) := by
  have h := merge_absence_preserves
    { serial := "A1", name := PyVal.str "L", sp_cool := PyVal.float 24,
      raw := [("k0", PyVal.int 7)] }
    [("zzz", PyVal.int 1)]
  exact ⟨h.2.2.1 rfl, h.2.2.2.2.2.2.2.2.2.2.2.2.2.2.2.2.2.1 "k0" rfl⟩

/-- C6: an enumerated value outside its allow-list is dropped silently for
that field only — the prior fan speed or air direction survives — while every
other field present in the same payload is still applied by its usual rule. -/
theorem invalid_enum_drops_field_only (d : DeviceState) (p : Dict) :
    (∀ v, p.lookup "fanSpeed" = some v → isValidFan v = false →
      (applyUpdate d p).fan_speed = d.fan_speed)
    ∧ (∀ v, p.lookup "airDirection" = some v → isValidAirDirection v = false →
      (applyUpdate d p).air_direction = d.air_direction)
    ∧ (∀ v, p.lookup "name" = some v → (applyUpdate d p).name = v)
    ∧ (∀ v, p.lookup "roomTemp" = some v → (applyUpdate d p).room_temp = v)
    ∧ (∀ v, p.lookup "spCool" = some v → (applyUpdate d p).sp_cool = v)
    ∧ (∀ v, p.lookup "spHeat" = some v → (applyUpdate d p).sp_heat = v)
    ∧ (∀ v, p.lookup "humidity" = some v → (applyUpdate d p).humidity = v)
    ∧ (∀ v, p.lookup "operationMode" = some v → truthy v = true →
        (applyUpdate d p).operation_mode = v)
    ∧ (∀ v, p.lookup "power" = some v → (applyUpdate d p).power = truthy v)
    ∧ (∀ v, p.lookup "scheduleOwner" = some v →
        (applyUpdate d p).schedule_owner = v)
    ∧ (∀ v, p.lookup "lastStatusChangeAt" = some v →
        (applyUpdate d p).last_status_change = v)
    ∧ (∀ v, p.lookup "rssi" = some v → (applyUpdate d p).rssi = v)
    ∧ (∀ v, p.lookup "twoFiguresCode" = some v →
        (applyUpdate d p).two_figures_code = v)
    ∧ (∀ v, p.lookup "serialNumber" = some v →
        (applyUpdate d p).serial_number = v)
    ∧ (∀ v, p.lookup "status" = some v →
        (applyUpdate d p).connected = statusConnected v) := by
  refine ⟨?_, ?_, ?_, ?_, ?_, ?_, ?_, ?_, ?_, ?_, ?_, ?_, ?_, ?_, ?_⟩
  · intro v h hv
    have hk : hasKey p "fanSpeed" = true := by simp [hasKey, h]
    have hg : pyGet p "fanSpeed" = v := by simp [pyGet, h]
    simp [applyUpdate, hk, hg, hv]
  · intro v h hv
    have hk : hasKey p "airDirection" = true := by simp [hasKey, h]
    have hg : pyGet p "airDirection" = v := by simp [pyGet, h]
    simp [applyUpdate, hk, hg, hv]
  · intro v h
    have hk : hasKey p "name" = true := by simp [hasKey, h]
    have hg : pyGet p "name" = v := by simp [pyGet, h]
    simp [applyUpdate, hk, hg]
  · intro v h
    have hk : hasKey p "roomTemp" = true := by simp [hasKey, h]
    have hg : pyGet p "roomTemp" = v := by simp [pyGet, h]
    simp [applyUpdate, hk, hg]
  · intro v h
    have hk : hasKey p "spCool" = true := by simp [hasKey, h]
    have hg : pyGet p "spCool" = v := by simp [pyGet, h]
    simp [applyUpdate, hk, hg]
  · intro v h
    have hk : hasKey p "spHeat" = true := by simp [hasKey, h]
    have hg : pyGet p "spHeat" = v := by simp [pyGet, h]
    simp [applyUpdate, hk, hg]
  · intro v h
    have hk : hasKey p "humidity" = true := by simp [hasKey, h]
    have hg : pyGet p "humidity" = v := by simp [pyGet, h]
    simp [applyUpdate, hk, hg]
  · intro v h ht
    have hk : hasKey p "operationMode" = true := by simp [hasKey, h]
    have hg : pyGet p "operationMode" = v := by simp [pyGet, h]
    simp [applyUpdate, hk, hg, pyOr, ht]
  · intro v h
    have hk : hasKey p "power" = true := by simp [hasKey, h]
    have hg : pyGet p "power" = v := by simp [pyGet, h]
    simp [applyUpdate, hk, hg]
  · intro v h
    have hk : hasKey p "scheduleOwner" = true := by simp [hasKey, h]
    have hg : pyGet p "scheduleOwner" = v := by simp [pyGet, h]
    simp [applyUpdate, hk, hg]
  · intro v h
    have hk : hasKey p "lastStatusChangeAt" = true := by simp [hasKey, h]
    have hg : pyGet p "lastStatusChangeAt" = v := by simp [pyGet, h]
    simp [applyUpdate, hk, hg]
  · intro v h
    have hk : hasKey p "rssi" = true := by simp [hasKey, h]
    have hg : pyGet p "rssi" = v := by simp [pyGet, h]
    simp [applyUpdate, hk, hg]
  · intro v h
    have hk : hasKey p "twoFiguresCode" = true := by simp [hasKey, h]
    have hg : pyGet p "twoFiguresCode" = v := by simp [pyGet, h]
    simp [applyUpdate, hk, hg]
  · intro v h
    have hk : hasKey p "serialNumber" = true := by simp [hasKey, h]
    have hg : pyGet p "serialNumber" = v := by simp [pyGet, h]
    simp [applyUpdate, hk, hg]
  · intro v h
    have hk : hasKey p "status" = true := by simp [hasKey, h]
    have hg : pyGet p "status" = v := by simp [pyGet, h]
    simp [applyUpdate, hk, hg]

/-- Witness for C6: a payload with fan speed `turbo` and air direction
`sideways` (both outside their allow-lists) plus a cool setpoint leaves both
enumerated fields alone and still applies the setpoint. -/
theorem invalid_enum_drops_field_only_witness :
    (applyUpdate
        { serial := "A1", name := PyVal.str "L", fan_speed := PyVal.str "low",
          air_direction := PyVal.str "swing" }
        [("fanSpeed", PyVal.str "turbo"), ("airDirection", PyVal.str "sideways"),
         ("spCool", PyVal.float 22)]).fan_speed = PyVal.str "low"
    ∧ (applyUpdate
        { serial := "A1", name := PyVal.str "L", fan_speed := PyVal.str "low",
          air_direction := PyVal.str "swing" }
        [("fanSpeed", PyVal.str "turbo"), ("airDirection", PyVal.str "sideways"),
         ("spCool", PyVal.float 22)]).air_direction = PyVal.str "swing"
    ∧ (applyUpdate
        { serial := "A1", name := PyVal.str "L", fan_speed := PyVal.str "low",
          air_direction := PyVal.str "swing" }
        [("fanSpeed", PyVal.str "turbo"), ("airDirection", PyVal.str "sideways"),
         ("spCool", PyVal.float 22)]).sp_cool = PyVal.float 22 := by
  have h := invalid_enum_drops_field_only
    { serial := "A1", name := PyVal.str "L", fan_speed := PyVal.str "low",
      air_direction := PyVal.str "swing" }
    [("fanSpeed", PyVal.str "turbo"), ("airDirection", PyVal.str "sideways"),
     ("spCool", PyVal.float 22)]
  exact ⟨h.1 (PyVal.str "turbo") rfl rfl,
    h.2.1 (PyVal.str "sideways") rfl rfl,
    h.2.2.2.2.1 (PyVal.float 22) rfl⟩

/-- C7: a freshly issued pair expires 18 minutes (access) and 25 days
(refresh) after issuance; strictly before the access expiry every
`_ensure_authenticated` call returns the cached state with zero network
calls, and from 18 minutes on (refresh still valid, refresh token truthy) a
call performs exactly one refresh network call. -/
theorem fresh_token_refresh_schedule (tokenJson : Dict) (t0 : Rat)
    (loginResp refreshResp : AuthResponse) :
    ((TokenInfo.fromResponse tokenJson t0).access_expires_at = t0 + 1080)
    ∧ ((TokenInfo.fromResponse tokenJson t0).refresh_expires_at = t0 + 2160000)
    ∧ (∀ now : Rat, now < t0 + 1080 →
        ensureAuthenticated ⟨Option.some (TokenInfo.fromResponse tokenJson t0)⟩ now
            loginResp refreshResp
          = ([], Except.ok ⟨Option.some (TokenInfo.fromResponse tokenJson t0)⟩))
    ∧ (∀ now : Rat, t0 + 1080 ≤ now → now < t0 + 2160000 →
        truthy (TokenInfo.fromResponse tokenJson t0).refresh = true →
        (ensureAuthenticated ⟨Option.some (TokenInfo.fromResponse tokenJson t0)⟩ now
            loginResp refreshResp).1
          = [NetCall.refresh]) := by
  refine ⟨by unfold TokenInfo.fromResponse; norm_num,
    by unfold TokenInfo.fromResponse; norm_num, ?_, ?_⟩
  · intro now hnow
    have hacc : ((TokenInfo.fromResponse tokenJson t0).isAccessExpired now) = false := by
      unfold TokenInfo.isAccessExpired TokenInfo.fromResponse
      simp only [decide_eq_false_iff_not, not_le]
      calc now < t0 + 1080 := hnow
        _ = t0 + 18 * 60 := by norm_num
    simp [ensureAuthenticated, hacc]
  · intro now h1 h2 htr
    have hacc : ((TokenInfo.fromResponse tokenJson t0).isAccessExpired now) = true := by
      unfold TokenInfo.isAccessExpired TokenInfo.fromResponse
      simp only [decide_eq_true_eq]
      calc (t0 : Rat) + 18 * 60 = t0 + 1080 := by norm_num
        _ ≤ now := h1
    have href : ((TokenInfo.fromResponse tokenJson t0).isRefreshExpired now) = false := by
      unfold TokenInfo.isRefreshExpired TokenInfo.fromResponse
      simp only [decide_eq_false_iff_not, not_le]
      calc now < t0 + 2160000 := h2
        _ = t0 + 25 * 86400 := by norm_num
    simp [ensureAuthenticated, hacc, href, refreshToken, htr]

/-- Witness for C7: with a pair issued at time 0, a call at 500 seconds is a
silent cache hit and a call at exactly 1080 seconds performs the single
refresh call. -/
theorem fresh_token_refresh_schedule_witness :
    (ensureAuthenticated
        ⟨Option.some (TokenInfo.fromResponse
          [("access", PyVal.str "a"), ("refresh", PyVal.str "r")] 0)⟩ 500
        ⟨200, []⟩ ⟨200, []⟩
      = ([], Except.ok ⟨Option.some (TokenInfo.fromResponse
          [("access", PyVal.str "a"), ("refresh", PyVal.str "r")] 0)⟩))
    ∧ ((ensureAuthenticated
        ⟨Option.some (TokenInfo.fromResponse
          [("access", PyVal.str "a"), ("refresh", PyVal.str "r")] 0)⟩ 1080
        ⟨200, []⟩ ⟨200, []⟩).1
      = [NetCall.refresh]) := by
  have h := fresh_token_refresh_schedule
    [("access", PyVal.str "a"), ("refresh", PyVal.str "r")] 0 ⟨200, []⟩ ⟨200, []⟩
  exact ⟨h.2.2.1 500 (by norm_num), h.2.2.2 1080 (by norm_num) (by norm_num) rfl⟩

/-- Counterexample to C3 as stated: with an expired access token, a valid
refresh token and a failing refresh exchange, `_ensure_authenticated` raises
the refresh `AuthenticationError` and never attempts a login. -/
theorem refresh_failure_no_login_fallback_cex :
    (ensureAuthenticated
        ⟨Option.some ⟨PyVal.str "a", PyVal.str "r", 0, 1000⟩⟩ 10
        ⟨200, [("access", PyVal.str "a2"), ("refresh", PyVal.str "r2")]⟩ ⟨400, []⟩
      = ([NetCall.refresh],
        Except.error (KumoError.authentication "Token refresh failed")))
    ∧ NetCall.login ∉ (ensureAuthenticated
        ⟨Option.some ⟨PyVal.str "a", PyVal.str "r", 0, 1000⟩⟩ 10
        ⟨200, [("access", PyVal.str "a2"), ("refresh", PyVal.str "r2")]⟩ ⟨400, []⟩).1 := by
  constructor
  · rfl
  · intro hmem
    have heval : (ensureAuthenticated
        ⟨Option.some ⟨PyVal.str "a", PyVal.str "r", 0, 1000⟩⟩ 10
        ⟨200, [("access", PyVal.str "a2"), ("refresh", PyVal.str "r2")]⟩ ⟨400, []⟩).1
        = [NetCall.refresh] := rfl
    rw [heval] at hmem
    simp at hmem

/-- C3 as amended: with an expired access token and a valid, truthy refresh
token, `_ensure_authenticated` performs exactly one refresh exchange; when
that exchange answers with a non-2xx status, the `AuthenticationError` raised
by `_refresh_token` propagates to the caller and no fresh login is attempted. -/
theorem refresh_failure_propagates (st : ClientState) (t : TokenInfo) (now : Rat)
    (loginResp refreshResp : AuthResponse)
    (htok : st.tokens = Option.some t)
    (hacc : t.access_expires_at ≤ now)
    (href : now < t.refresh_expires_at)
    (htr : truthy t.refresh = true)
    (hfail : 400 ≤ refreshResp.status) :
    ensureAuthenticated st now loginResp refreshResp
      = ([NetCall.refresh],
        Except.error (KumoError.authentication "Token refresh failed")) := by
  have hacc2 : t.isAccessExpired now = true := by
    unfold TokenInfo.isAccessExpired
    simpa using hacc
  have href2 : t.isRefreshExpired now = false := by
    unfold TokenInfo.isRefreshExpired
    simp [not_le.mpr href]
  simp [ensureAuthenticated, htok, hacc2, href2, refreshToken, htr, hfail]

/-- Witness for C3 as amended, at the concrete input of the counterexample. -/
theorem refresh_failure_propagates_witness :
    ensureAuthenticated
        ⟨Option.some ⟨PyVal.str "a", PyVal.str "r", 0, 1000⟩⟩ 10
        ⟨200, [("access", PyVal.str "a2"), ("refresh", PyVal.str "r2")]⟩ ⟨400, []⟩
      = ([NetCall.refresh],
        Except.error (KumoError.authentication "Token refresh failed")) :=
  refresh_failure_propagates
    ⟨Option.some ⟨PyVal.str "a", PyVal.str "r", 0, 1000⟩⟩
    ⟨PyVal.str "a", PyVal.str "r", 0, 1000⟩
    10 ⟨200, [("access", PyVal.str "a2"), ("refresh", PyVal.str "r2")]⟩ ⟨400, []⟩
    rfl (by norm_num) (by norm_num) rfl (by norm_num)

/-- Counterexample to C4 as stated: with a valid cached token, a 401 first
answer, a successful forced refresh and a 401 answer to the retry, `_request`
raises the generic `MitsubishiComfortError` (ServiceError), not
`AuthenticationError`. -/
theorem second_401_is_service_error_cex :
    request ⟨Option.some ⟨PyVal.str "a", PyVal.str "r", 100, 1000⟩⟩ 0
        "GET" "/v3/sites/" true
        ⟨200, []⟩ ⟨200, [("access", PyVal.str "a2"), ("refresh", PyVal.str "r2")]⟩
        ⟨401, PyVal.none⟩ ⟨401, PyVal.none⟩
      = ([NetCall.api "GET" "/v3/sites/", NetCall.refresh,
          NetCall.api "GET" "/v3/sites/"],
        Except.error (KumoError.service "API error")) := rfl

/-- C4 as amended: an authenticated call answered with 401 triggers exactly
one forced token refresh and exactly one retry of the same method and
endpoint; a failure of the forced refresh itself propagates as
`AuthenticationError`, while a non-success answer to the retried attempt
(including a second 401) propagates as the generic `MitsubishiComfortError`
(ServiceError). -/
theorem retry_once_on_401 (st : ClientState) (t : TokenInfo) (now : Rat)
    (method endpoint : String) (loginResp refreshResp : AuthResponse)
    (firstResp retryResp : HttpResponse)
    (htok : st.tokens = Option.some t)
    (hacc : now < t.access_expires_at)
    (htr : truthy t.refresh = true)
    (h401 : firstResp.status = 401) :
    (400 ≤ refreshResp.status →
      request st now method endpoint true loginResp refreshResp firstResp retryResp
        = ([NetCall.api method endpoint, NetCall.refresh],
          Except.error (KumoError.authentication "Token refresh failed")))
    ∧ (refreshResp.status < 400 →
        ((request st now method endpoint true loginResp refreshResp
            firstResp retryResp).1
          = [NetCall.api method endpoint, NetCall.refresh,
             NetCall.api method endpoint])
        ∧ (400 ≤ retryResp.status →
            (request st now method endpoint true loginResp refreshResp
                firstResp retryResp).2
              = Except.error (KumoError.service "API error"))
        ∧ (retryResp.status < 400 →
            (request st now method endpoint true loginResp refreshResp
                firstResp retryResp).2
              = Except.ok
                  (⟨Option.some (TokenInfo.fromResponse refreshResp.tokenJson now)⟩,
                   retryResp.body))) := by
  have hacc2 : t.isAccessExpired now = false := by
    unfold TokenInfo.isAccessExpired
    simp [not_le.mpr hacc]
  have hens : ensureAuthenticated st now loginResp refreshResp = ([], Except.ok st) := by
    simp [ensureAuthenticated, htok, hacc2]
  constructor
  · intro hfail
    simp [request, hens, htok, h401, refreshToken, htr, hfail]
  · intro hok
    have hok2 : (400 ≤ refreshResp.status) = False := by simp [not_le.mpr hok]
    refine ⟨?_, ?_, ?_⟩
    · simp only [request, hens, htok, h401, refreshToken, htr, hok2]
      simp [request, hens, htok, h401, refreshToken, htr, hok2]
      split <;> rfl
    · intro hr
      simp [request, hens, htok, h401, refreshToken, htr, hok2, hr]
    · intro hr
      have hr2 : (400 ≤ retryResp.status) = False := by simp [not_le.mpr hr]
      simp [request, hens, htok, h401, refreshToken, htr, hok2, hr2]

/-- Witness for C4 as amended, at the concrete input of the counterexample plus a
successful-retry variant. -/
theorem retry_once_on_401_witness :
    ((request ⟨Option.some ⟨PyVal.str "a", PyVal.str "r", 100, 1000⟩⟩ 0
        "GET" "/v3/sites/" true
        ⟨200, []⟩ ⟨200, [("access", PyVal.str "a2"), ("refresh", PyVal.str "r2")]⟩
        ⟨401, PyVal.none⟩ ⟨401, PyVal.none⟩).1
      = [NetCall.api "GET" "/v3/sites/", NetCall.refresh,
         NetCall.api "GET" "/v3/sites/"])
    ∧ ((request ⟨Option.some ⟨PyVal.str "a", PyVal.str "r", 100, 1000⟩⟩ 0
        "GET" "/v3/sites/" true
        ⟨200, []⟩ ⟨200, [("access", PyVal.str "a2"), ("refresh", PyVal.str "r2")]⟩
        ⟨401, PyVal.none⟩ ⟨401, PyVal.none⟩).2
      = Except.error (KumoError.service "API error")) := by
  have h := retry_once_on_401
    ⟨Option.some ⟨PyVal.str "a", PyVal.str "r", 100, 1000⟩⟩
    ⟨PyVal.str "a", PyVal.str "r", 100, 1000⟩ 0 "GET" "/v3/sites/"
    ⟨200, []⟩ ⟨200, [("access", PyVal.str "a2"), ("refresh", PyVal.str "r2")]⟩
    ⟨401, PyVal.none⟩ ⟨401, PyVal.none⟩
    rfl (by norm_num) rfl rfl
  have h2 := h.2 (by norm_num)
  exact ⟨h2.1, h2.2.1 (by norm_num)⟩

/-- C1: after `register_command_hold(S, [spCool, power], 10)` at time `t`, a
push event for `S` at `t + 1` is merged with the protected keys stripped — the
record `spCool` is unchanged and any other present field such as `roomTemp`
is still applied — while the same event at `t + 11` is merged in full
(`spCool` applied normally) and the hold entry is removed. -/
theorem hold_protects_then_expires (st : CoordState) (serial : String)
    (device : DeviceState) (p : Dict) (t : Rat)
    (hdev : st.data.lookup serial = some device)
    (hser : p.lookup "deviceSerial" = some (PyVal.str serial))
    (hne : serial ≠ "") :
    (handleSocketEvent (registerCommandHold st serial ["spCool", "power"] 10 t)
        "device_update" p (t + 1)
      = { data := dictInsert st.data serial
            (applyUpdate device
              (p.filter (fun kv => !(["spCool", "power"].contains kv.1))))
          holds := dictInsert st.holds serial (t + 10, ["spCool", "power"]) })
    ∧ ((applyUpdate device
          (p.filter (fun kv => !(["spCool", "power"].contains kv.1)))).sp_cool
        = device.sp_cool)
    ∧ (∀ v, p.lookup "roomTemp" = some v →
        (applyUpdate device
            (p.filter (fun kv => !(["spCool", "power"].contains kv.1)))).room_temp
          = v)
    ∧ (handleSocketEvent (registerCommandHold st serial ["spCool", "power"] 10 t)
        "device_update" p (t + 11)
      = { data := dictInsert st.data serial (applyUpdate device p)
          holds := dictRemove
            (dictInsert st.holds serial (t + 10, ["spCool", "power"])) serial })
    ∧ ((dictRemove
          (dictInsert st.holds serial (t + 10, ["spCool", "power"])) serial).lookup
        serial = none)
    ∧ (∀ v, p.lookup "spCool" = some v → (applyUpdate device p).sp_cool = v) := by
  have hg : pyGet p "deviceSerial" = PyVal.str serial := by simp [pyGet, hser]
  have hbe : (serial == "") = false := beq_eq_false_iff_ne.mpr hne
  have hhold := lookup_dictInsert_self st.holds serial
    (((t + 10 : Rat)), (["spCool", "power"] : List String))
  refine ⟨?_, ?_, ?_, ?_, lookup_dictRemove_self _ _, ?_⟩
  · have hnotexp : ¬ ((t + (10 : Rat)) ≤ t + 1) := by
      intro hle
      have := (add_le_add_iff_left t).mp hle
      norm_num at this
    simp only [handleSocketEvent, registerCommandHold, hg, hbe, hdev, hhold,
      Bool.and_self, Bool.false_and, Bool.and_false, if_neg hnotexp]
    norm_num
  · have hk : hasKey (p.filter (fun kv => !(["spCool", "power"].contains kv.1)))
        "spCool" = false := by
      unfold hasKey
      rw [lookup_filter_strip]
      rfl
    show (if hasKey (p.filter (fun kv => !(["spCool", "power"].contains kv.1)))
          "spCool" then
        pyGet (p.filter (fun kv => !(["spCool", "power"].contains kv.1))) "spCool"
      else device.sp_cool) = device.sp_cool
    rw [hk]
    simp
  · intro v hv
    have hk : hasKey (p.filter (fun kv => !(["spCool", "power"].contains kv.1)))
        "roomTemp" = true := by
      unfold hasKey
      rw [lookup_filter_strip]
      show (p.lookup "roomTemp").isSome = true
      rw [hv]
      rfl
    have hgv : pyGet (p.filter (fun kv => !(["spCool", "power"].contains kv.1)))
        "roomTemp" = v := by
      unfold pyGet
      rw [lookup_filter_strip]
      show (p.lookup "roomTemp").getD PyVal.none = v
      rw [hv]
      rfl
    show (if hasKey (p.filter (fun kv => !(["spCool", "power"].contains kv.1)))
          "roomTemp" then
        pyGet (p.filter (fun kv => !(["spCool", "power"].contains kv.1))) "roomTemp"
      else device.room_temp) = v
    rw [hk, hgv]
    simp
  · have hexp : ((t + (10 : Rat)) ≤ t + 11) := by
      rw [add_le_add_iff_left]
      norm_num
    simp only [handleSocketEvent, registerCommandHold, hg, hbe, hdev, hhold,
      if_pos hexp]
    norm_num
  · intro v hv
    have hk : hasKey p "spCool" = true := by simp [hasKey, hv]
    have hgv : pyGet p "spCool" = v := by simp [pyGet, hv]
    show (if hasKey p "spCool" then pyGet p "spCool" else device.sp_cool) = v
    rw [hk, hgv]
    simp

/-- Witness for C1: a concrete registry with device `A1` at `spCool = 24`, a
hold taken at time 0, and a push carrying `spCool = 26` and `roomTemp = 23.1`;
at time 1 the setpoint survives and the room temperature lands, at time 11 the
setpoint is overwritten and the hold is gone. -/
theorem hold_protects_then_expires_witness :
    ((applyUpdate
        { serial := "A1", name := PyVal.str "L", sp_cool := PyVal.float 24 }
        ([("deviceSerial", PyVal.str "A1"), ("spCool", PyVal.float 26),
          ("roomTemp", PyVal.float 23.1)].filter
          (fun kv => !(["spCool", "power"].contains kv.1)))).sp_cool
      = PyVal.float 24)
    ∧ ((applyUpdate
        { serial := "A1", name := PyVal.str "L", sp_cool := PyVal.float 24 }
        ([("deviceSerial", PyVal.str "A1"), ("spCool", PyVal.float 26),
          ("roomTemp", PyVal.float 23.1)].filter
          (fun kv => !(["spCool", "power"].contains kv.1)))).room_temp
      = PyVal.float 23.1)
    ∧ ((dictRemove
          (dictInsert
            (⟨[("A1", { serial := "A1", name := PyVal.str "L",
                         sp_cool := PyVal.float 24 })], []⟩ : CoordState).holds
            "A1" ((0 : Rat) + 10, ["spCool", "power"])) "A1").lookup "A1" = none)
    ∧ ((applyUpdate
        { serial := "A1", name := PyVal.str "L", sp_cool := PyVal.float 24 }
        [("deviceSerial", PyVal.str "A1"), ("spCool", PyVal.float 26),
         ("roomTemp", PyVal.float 23.1)]).sp_cool = PyVal.float 26) := by
  have h := hold_protects_then_expires
    (⟨[("A1", { serial := "A1", name := PyVal.str "L",
                 sp_cool := PyVal.float 24 })], []⟩ : CoordState)
    "A1"
    { serial := "A1", name := PyVal.str "L", sp_cool := PyVal.float 24 }
    [("deviceSerial", PyVal.str "A1"), ("spCool", PyVal.float 26),
     ("roomTemp", PyVal.float 23.1)]
    0 rfl rfl (by decide)
  exact ⟨h.2.1, h.2.2.1 (PyVal.float 23.1) rfl, h.2.2.2.2.1,
    h.2.2.2.2.2 (PyVal.float 26) rfl⟩

/-- C5 failing input: for a zone listing that yields one device (serial `A1`,
already carrying a model number so the first enrichment pass is skipped),
`async_get_devices` raises `AttributeError` on reading the undeclared
`room_temp_offset` attribute at the start of the second enrichment pass — for
every possible outcome of the enrichment requests — instead of returning the
device mapping built from the zone listing. -/
theorem getDevices_raises_attributeError
    (detailsResp : String → Except Unit DeviceDetailsT)
    (statusResp : String → Except Unit DeviceStatusT) :
    asyncGetDevices
        [{ id := Option.some "z1", name := Option.some "Living",
           adapter := Option.some { deviceSerial := Option.some "A1",
                                    serialNumber := Option.some "S1",
                                    modelNumber := Option.some "M1" } }]
        detailsResp statusResp
      = Except.error (PyError.attributeError "room_temp_offset") := rfl

end KumoWS
